import Mathlib

/-!
Verification of the voice-satellite firmware audio pipeline
(src/esp32/src/main.cpp) against its natural-language specification.

The firmware is shallowly embedded: machine integers are modelled as Nat
or Int with explicit reductions modulo 2 ^ w where the width matters, the
shared audio buffer is a function from byte offsets to byte values, and the
imperative control flow of loop(), captureAudioChunk(), stopRecording() and
sendAudioToServer() is modelled as pure state-passing functions that also
emit a trace of observable actions (buffer copies, header writes, HTTP
posts, playback invocations, diagnostic reports).
-/

namespace VoiceSatellite

/-! ## Configuration constants (main.cpp lines 48-62) -/

def SAMPLE_RATE : Nat := 16000

def BITS_PER_SAMPLE : Nat := 16

def CHANNELS : Nat := 1

def BYTES_PER_SAMPLE : Nat := BITS_PER_SAMPLE / 8

def I2S_READ_BUF_SIZE : Nat := 1024

def MAX_RECORDING_SECS : Nat := 15

def MAX_AUDIO_BYTES : Nat := SAMPLE_RATE * BYTES_PER_SAMPLE * MAX_RECORDING_SECS

def WAV_HEADER_SIZE : Nat := 44

/-! ## WAV header codec (writeWavHeader, main.cpp lines 143-178)

The buffer is a function from byte offset to byte value.  Each source
statement buf[i] = v is one store; storing into a uint8_t cell truncates
the stored value modulo 256, which models the (uint8_t) casts in the
source.  The dataSize parameter is a uint32_t, so it is reduced modulo
2 ^ 32 on entry and the uint32_t expression fileSize = dataSize +
WAV_HEADER_SIZE - 8 is reduced modulo 2 ^ 32 as well. -/

def setByte (b : Nat → Nat) (i v : Nat) : Nat → Nat :=
  fun j => if j = i then v % 256 else b j

def wavFileSize (dataSize : Nat) : Nat :=
  (dataSize % 2 ^ 32 + (WAV_HEADER_SIZE - 8)) % 2 ^ 32

def wavByteRate : Nat := SAMPLE_RATE * CHANNELS * BYTES_PER_SAMPLE

def wavBlockAlign : Nat := CHANNELS * BYTES_PER_SAMPLE

/-- The 44 stores performed by writeWavHeader, in source order: byte offset
paired with the stored expression (before the uint8_t truncation applied by
the store itself).  Character constants appear as their ASCII codes. -/
def headerFields (dataSize : Nat) : List (Nat × Nat) :=
  let ds := dataSize % 2 ^ 32
  let fileSize := wavFileSize dataSize
  [(0, 82), (1, 73), (2, 70), (3, 70),
   (4, fileSize), (5, fileSize / 2 ^ 8), (6, fileSize / 2 ^ 16), (7, fileSize / 2 ^ 24),
   (8, 87), (9, 65), (10, 86), (11, 69),
   (12, 102), (13, 109), (14, 116), (15, 32),
   (16, 16), (17, 0), (18, 0), (19, 0),
   (20, 1), (21, 0),
   (22, CHANNELS), (23, 0),
   (24, SAMPLE_RATE), (25, SAMPLE_RATE / 2 ^ 8),
   (26, SAMPLE_RATE / 2 ^ 16), (27, SAMPLE_RATE / 2 ^ 24),
   (28, wavByteRate), (29, wavByteRate / 2 ^ 8),
   (30, wavByteRate / 2 ^ 16), (31, wavByteRate / 2 ^ 24),
   (32, wavBlockAlign), (33, 0),
   (34, BITS_PER_SAMPLE), (35, 0),
   (36, 100), (37, 97), (38, 116), (39, 97),
   (40, ds), (41, ds / 2 ^ 8), (42, ds / 2 ^ 16), (43, ds / 2 ^ 24)]

/-- writeWavHeader (main.cpp lines 143-178): performs the 44 stores of
headerFields, in order, on the shared buffer. -/
def writeWavHeader (buf : Nat → Nat) (dataSize : Nat) : Nat → Nat :=
  (headerFields dataSize).foldl (fun acc p => setByte acc p.1 p.2) buf

/-- Little-endian 32-bit read of four consecutive buffer bytes. -/
def readLE32 (b : Nat → Nat) (off : Nat) : Nat :=
  b off + 2 ^ 8 * b (off + 1) + 2 ^ 16 * b (off + 2) + 2 ^ 24 * b (off + 3)

/-- Modelled from the spec: validateHeader is the consumer-side duty of the
container contract (spec 4.1); no implementation exists under src/.  Per the
spec and claim C2 it verifies the RIFF/WAVE and data tag pairs and extracts
the declared payload length from the little-endian field at bytes 40-43. -/
def validateHeader (b : Nat → Nat) : Option Nat :=
  if b 0 = 82 ∧ b 1 = 73 ∧ b 2 = 70 ∧ b 3 = 70 ∧
     b 8 = 87 ∧ b 9 = 65 ∧ b 10 = 86 ∧ b 11 = 69 ∧
     b 36 = 100 ∧ b 37 = 97 ∧ b 38 = 116 ∧ b 39 = 97 then
    some (readLE32 b 40)
  else
    none

/-! ## Observable actions

The imperative firmware functions are modelled as pure functions that
return the updated global state together with a list of observable actions
performed, in order: memory copies into the shared audio buffer, the header
write, the HTTP POST, playback, and the diagnostic reports printed on the
serial channel. -/

inductive Action where
  | startRec
  | copyToBuffer (pos len : Nat)
  | bufferFullStop
  | stopRec
  | headerWrite (dataSize : Nat)
  | discardShort
  | sendInvoked
  | wifiSkipReport
  | httpPost (size : Nat)
  | copyRespToBuffer (pos len : Nat)
  | playAudio (bytes : Nat)
  | printBody
  | tooLargeReport
  | httpErrorReport (code : Int)
  deriving DecidableEq

/-- Global mutable state of the firmware (main.cpp lines 68-71).  The
lastButtonState field is true for HIGH (button not pressed, pull-up) and
false for LOW (pressed); ledOn models the status LED on pin 2. -/
structure SatState where
  audioBufferPos : Nat
  isRecording : Bool
  lastButtonState : Bool
  ledOn : Bool
  deriving DecidableEq

/-- Result of one i2s_read call on the microphone port: ok models
result == ESP_OK and bytesRead is the byte count delivered (the source
requests at most I2S_READ_BUF_SIZE bytes per call). -/
structure I2SRead where
  ok : Bool
  bytesRead : Nat
  deriving DecidableEq

/-- Environment of one HTTP exchange: link status at entry, the status
code returned by http.POST, the declared Content-Type of the response as a
character list, the declared length from http.getSize (an int, -1 when
unknown), and the stream behaviour of the response body:
one (available, delivered) pair per poll of the read loop, where available
models stream->available() and delivered models how many bytes
stream->readBytes actually returned (at most the requested count). -/
structure HttpEnv where
  wifiConnected : Bool
  httpCode : Int
  contentType : List Char
  responseLen : Int
  polls : List (Nat × Nat)

/-- The characters of the string literal audio/wav used by the
contentType.startsWith check in main.cpp line 284. -/
def audioWavChars : List Char :=
  ['a', 'u', 'd', 'i', 'o', '/', 'w', 'a', 'v']

/-! ## Recording (main.cpp lines 206-253) -/

/-- startRecording (lines 206-211): reserve room for the WAV header,
mark capture active, LED on. -/
def startRecording (s : SatState) : SatState × List Action :=
  ({ s with audioBufferPos := WAV_HEADER_SIZE, isRecording := true, ledOn := true },
   [Action.startRec])

/-- captureAudioChunk (lines 213-239): no-op unless recording; on a
successful nonempty i2s read, append the chunk at the cursor if it fits in
MAX_AUDIO_BYTES + WAV_HEADER_SIZE, otherwise stop recording (buffer full)
without writing anything. -/
def captureAudioChunk (s : SatState) (r : I2SRead) : SatState × List Action :=
  if s.isRecording = false then (s, [])
  else if r.ok = true ∧ 0 < r.bytesRead then
    if s.audioBufferPos + r.bytesRead ≤ MAX_AUDIO_BYTES + WAV_HEADER_SIZE then
      ({ s with audioBufferPos := s.audioBufferPos + r.bytesRead },
       [Action.copyToBuffer s.audioBufferPos r.bytesRead])
    else
      ({ s with isRecording := false, ledOn := false }, [Action.bufferFullStop])
  else (s, [])

/-- stopRecording (lines 241-253): mark capture inactive, LED off, and
patch the WAV header over the first 44 bytes with
dataSize = audioBufferPos - WAV_HEADER_SIZE. -/
def stopRecording (s : SatState) : SatState × List Action :=
  ({ s with isRecording := false, ledOn := false },
   [Action.stopRec, Action.headerWrite (s.audioBufferPos - WAV_HEADER_SIZE)])

/-! ## Minimum-duration policy (main.cpp lines 412-415)

The source computes
float durationSecs = (float)audioDataSize / (SAMPLE_RATE * BYTES_PER_SAMPLE)
and sends only when durationSecs > 0.3.  This is IEEE-754 arithmetic:
audioDataSize is converted to binary32 (exact for every reachable size,
which is at most MAX_AUDIO_BYTES = 480000 < 2 ^ 24), divided by 32000
(exact in binary32) with the quotient rounded to nearest binary32, then the
binary32 quotient is promoted exactly to binary64 and compared with the
binary64 literal 0.3, whose exact value is 5404319552844595 / 2 ^ 54.

roundF32 below is round-to-nearest over ℚ at binary32 precision for
positive normal values: with e the binary exponent of q, the significand
q * 2 ^ (23 - e) is rounded to an integer and scaled back.  Mathlib round
rounds halves up while IEEE rounds ties to even, but no argument arising
here is a tie: the scaled significand is n * 2 ^ (15 - e) / 125 with
e ≤ 3, and twice that value, n * 2 ^ (16 - e) / 125, is always even when
it is an integer, so no half-integer ever occurs. -/

def roundF32 (q : ℚ) : ℚ :=
  if q ≤ 0 then 0
  else
    ((round (q * (2 : ℚ) ^ ((23 : ℤ) - Int.log 2 q)) : ℤ) : ℚ) *
      (2 : ℚ) ^ (Int.log 2 q - (23 : ℤ))

/-- Exact rational value of the binary64 literal 0.3. -/
def DOUBLE_0_3 : ℚ := 5404319552844595 / 2 ^ 54

/-- The send condition durationSecs > 0.3 of main.cpp line 415, as a
function of audioDataSize. -/
def durationExceedsMin (audioDataSize : Nat) : Bool :=
  decide (DOUBLE_0_3 <
    roundF32 ((audioDataSize : ℚ) / ((SAMPLE_RATE * BYTES_PER_SAMPLE : Nat) : ℚ)))

/-! ## HTTP exchange (sendAudioToServer, main.cpp lines 259-318) -/

inductive ReadLoopResult where
  | done (bytesRead : Nat)
  | pending (bytesRead : Nat)
  deriving DecidableEq

/-- The response read loop (lines 292-301): while bytesRead < responseLen,
poll stream->available(); on zero availability, delay(1) and poll again; on
positive availability, request toRead = min(available, responseLen -
bytesRead) bytes into the buffer at offset bytesRead and advance by the
count actually delivered (at most toRead).  The poll list is the observed
stream behaviour; pending means the loop is still running after the last
provided poll. -/
def readLoopRun (responseLen : Nat) : Nat → List (Nat × Nat) → ReadLoopResult × List Action
  | bytesRead, [] =>
    if bytesRead < responseLen then (ReadLoopResult.pending bytesRead, [])
    else (ReadLoopResult.done bytesRead, [])
  | bytesRead, p :: rest =>
    if bytesRead < responseLen then
      if 0 < p.1 then
        let toRead := min p.1 (responseLen - bytesRead)
        let got := min p.2 toRead
        let k := readLoopRun responseLen (bytesRead + got) rest
        (k.1, Action.copyRespToBuffer bytesRead toRead :: k.2)
      else
        readLoopRun responseLen bytesRead rest
    else (ReadLoopResult.done bytesRead, [])

/-- The audio classification of main.cpp line 284:
contentType.startsWith("audio/wav") && responseLen > WAV_HEADER_SIZE. -/
def classifiedAudio (env : HttpEnv) : Bool :=
  audioWavChars.isPrefixOf env.contentType &&
    decide ((WAV_HEADER_SIZE : Int) < env.responseLen)

/-- sendAudioToServer (lines 259-318): skip everything when the link is
down; otherwise POST the buffer and dispatch on the status code, the
response classification and the buffer-capacity check, running the read
loop and playback only on the fitting audio path. -/
def sendAudioToServer (s : SatState) (env : HttpEnv) : SatState × List Action :=
  if env.wifiConnected = false then (s, [Action.wifiSkipReport])
  else
    let totalSize := s.audioBufferPos
    if env.httpCode = 200 then
      if classifiedAudio env = true then
        if env.responseLen ≤ ((MAX_AUDIO_BYTES + WAV_HEADER_SIZE : Nat) : Int) then
          let rl := readLoopRun env.responseLen.toNat 0 env.polls
          match rl.1 with
          | ReadLoopResult.done b =>
            ({ s with ledOn := false },
             Action.httpPost totalSize :: (rl.2 ++ [Action.playAudio b]))
          | ReadLoopResult.pending _ =>
            ({ s with ledOn := false }, Action.httpPost totalSize :: rl.2)
        else
          ({ s with ledOn := false }, [Action.httpPost totalSize, Action.tooLargeReport])
      else
        ({ s with ledOn := false }, [Action.httpPost totalSize, Action.printBody])
    else
      ({ s with ledOn := false },
       [Action.httpPost totalSize, Action.httpErrorReport env.httpCode])

/-! ## Main loop (main.cpp lines 394-426) -/

/-- Input to one loop iteration: the sampled button level (true = HIGH =
not pressed), the i2s read outcome used if capture runs, and the HTTP
environment used if an exchange runs. -/
structure LoopInput where
  buttonState : Bool
  i2s : I2SRead
  env : HttpEnv

/-- One iteration of loop(): the press edge starts recording, a held LOW
button captures a chunk, and the release edge stops recording and then
either sends (duration above threshold) or discards; finally
lastButtonState is updated to the sampled level. -/
def loopIter (s : SatState) (inp : LoopInput) : SatState × List Action :=
  let r1 :=
    if s.lastButtonState = true ∧ inp.buttonState = false then startRecording s
    else (s, [])
  let r2 :=
    if inp.buttonState = false ∧ r1.1.isRecording = true then
      let c := captureAudioChunk r1.1 inp.i2s
      (c.1, r1.2 ++ c.2)
    else r1
  let r3 :=
    if r2.1.lastButtonState = false ∧ inp.buttonState = true ∧ r2.1.isRecording = true then
      let st := stopRecording r2.1
      let audioDataSize := st.1.audioBufferPos - WAV_HEADER_SIZE
      if durationExceedsMin audioDataSize = true then
        let se := sendAudioToServer st.1 inp.env
        (se.1, r2.2 ++ st.2 ++ [Action.sendInvoked] ++ se.2)
      else
        (st.1, r2.2 ++ st.2 ++ [Action.discardShort])
    else r2
  ({ r3.1 with lastButtonState := inp.buttonState }, r3.2)

/-- Iterated loop over a list of per-iteration inputs, concatenating the
emitted actions. -/
def runLoop (s : SatState) : List LoopInput → SatState × List Action
  | [] => (s, [])
  | i :: rest =>
    let a := loopIter s i
    let k := runLoop a.1 rest
    (k.1, a.2 ++ k.2)

/-- Iterated captureAudioChunk over a list of i2s read outcomes (the body
of a press-and-hold phase). -/
def captureRun (s : SatState) : List I2SRead → SatState × List Action
  | [] => (s, [])
  | r :: rest =>
    let c := captureAudioChunk s r
    let k := captureRun c.1 rest
    (k.1, c.2 ++ k.2)

/-- Global state after setup() (main.cpp lines 68-71 and 356-392). -/
def initState : SatState :=
  { audioBufferPos := 0, isRecording := false, lastButtonState := true, ledOn := false }

/-! ## Trace observation helpers -/

def isHttpPost : Action → Bool
  | Action.httpPost _ => true
  | _ => false

def isCopyResp : Action → Bool
  | Action.copyRespToBuffer _ _ => true
  | _ => false

def isPlay : Action → Bool
  | Action.playAudio _ => true
  | _ => false

def isHeaderWrite : Action → Bool
  | Action.headerWrite _ => true
  | _ => false

def isSendInvoked : Action → Bool
  | Action.sendInvoked => true
  | _ => false

def isDone : ReadLoopResult → Bool
  | ReadLoopResult.done _ => true
  | ReadLoopResult.pending _ => false

def isCopyCapture : Action → Bool
  | Action.copyToBuffer _ _ => true
  | _ => false

/-- Capture copies that stay within the buffer capacity. -/
def copyInBounds : Action → Bool
  | Action.copyToBuffer pos len => decide (pos + len ≤ MAX_AUDIO_BYTES + WAV_HEADER_SIZE)
  | _ => true

/-- Total number of payload bytes copied into the buffer by the capture
actions of a trace. -/
def copiedBytes (tr : List Action) : Nat :=
  (tr.map fun a => match a with
    | Action.copyToBuffer _ len => len
    | _ => 0).sum

/-! ## Concrete scenario data used by witnesses and counterexamples -/

/-- An HTTP environment that is never reached in the scenario it is used
in (its fields are defaults). -/
def idleEnv : HttpEnv :=
  { wifiConnected := true, httpCode := 200, contentType := [], responseLen := 0, polls := [] }

/-- A recording state in mid-utterance: button held (LOW), capture
active, cursor at the given offset. -/
def recStateAt (pos : Nat) : SatState :=
  { audioBufferPos := pos, isRecording := true, lastButtonState := false, ledOn := true }

/-- One loop iteration with the button held (LOW) and a full 1024-byte
i2s chunk delivered. -/
def heldInput : LoopInput :=
  { buttonState := false, i2s := { ok := true, bytesRead := 1024 }, env := idleEnv }

/-- One loop iteration with the button released (HIGH). -/
def releaseInput : LoopInput :=
  { buttonState := true, i2s := { ok := true, bytesRead := 0 }, env := idleEnv }

/-- Press-and-hold for 469 held iterations delivering full 1024-byte
chunks (the 469th append would overflow the 480044-byte capacity), then
release.  The first iteration is the press edge, which also captures a
chunk. -/
def c1Inputs : List LoopInput :=
  [heldInput] ++ List.replicate 467 heldInput ++ [heldInput] ++ [releaseInput]

/-- A successful exchange whose response declares audio/wav with a length
one byte above the buffer capacity. -/
def envTooLarge : HttpEnv :=
  { wifiConnected := true, httpCode := 200, contentType := audioWavChars,
    responseLen := (MAX_AUDIO_BYTES + WAV_HEADER_SIZE : Nat) + 1, polls := [] }

/-- A successful exchange whose audio response fits: 1600 PCM bytes plus
the header, delivered by one poll. -/
def envAudioFits : HttpEnv :=
  { wifiConnected := true, httpCode := 200, contentType := audioWavChars,
    responseLen := 1644, polls := [(1644, 1644)] }

/-- An exchange answered with status 201 (success range, but not 200). -/
def env201 : HttpEnv :=
  { wifiConnected := true, httpCode := 201, contentType := audioWavChars,
    responseLen := 1644, polls := [(1644, 1644)] }

/-- An exchange attempted while the WiFi link is down. -/
def envNoWifi : HttpEnv :=
  { wifiConnected := false, httpCode := 200, contentType := audioWavChars,
    responseLen := 1644, polls := [(1644, 1644)] }

/-- A capture sequence of 470 full 1024-byte chunks, whose 481280 total
incoming bytes exceed the 480000-byte payload capacity. -/
def rsOverflow : List I2SRead :=
  List.replicate 470 { ok := true, bytesRead := 1024 }

/-! ## Codec lemmas -/

theorem foldl_setByte_apply_not_mem (l : List (Nat × Nat)) (b : Nat → Nat) (j : Nat)
    (h : ∀ p ∈ l, p.1 ≠ j) :
    (l.foldl (fun acc p => setByte acc p.1 p.2) b) j = b j := by
  induction l generalizing b with
  | nil => rfl
  | cons p rest ih =>
    rw [List.foldl_cons, ih _ (fun q hq => h q (List.mem_cons_of_mem _ hq))]
    unfold setByte
    rw [if_neg fun hj => (h p (List.mem_cons_self p rest)) hj.symm]

theorem foldl_setByte_apply_mem (l : List (Nat × Nat)) (b b2 : Nat → Nat) (j : Nat)
    (h : j ∈ l.map Prod.fst) :
    (l.foldl (fun acc p => setByte acc p.1 p.2) b) j =
      (l.foldl (fun acc p => setByte acc p.1 p.2) b2) j := by
  induction l generalizing b b2 with
  | nil => simp at h
  | cons p rest ih =>
    rw [List.foldl_cons, List.foldl_cons]
    by_cases hr : j ∈ rest.map Prod.fst
    · exact ih _ _ hr
    · have hkeys : ∀ q ∈ rest, q.1 ≠ j := by
        intro q hq hqj
        exact hr (hqj ▸ List.mem_map_of_mem Prod.fst hq)
      rw [foldl_setByte_apply_not_mem _ _ _ hkeys, foldl_setByte_apply_not_mem _ _ _ hkeys]
      have hj : j = p.1 := by
        rcases List.mem_map.1 h with ⟨q, hq, hq1⟩
        rcases List.mem_cons.1 hq with h1 | h2
        · rw [h1] at hq1; exact hq1.symm
        · exact absurd hq1 (hkeys q h2)
      simp [setByte, hj]

theorem headerFields_fst (dataSize : Nat) :
    (headerFields dataSize).map Prod.fst = List.range 44 := by
  rfl

/-- Frame and purity of writeWavHeader: offsets at and beyond the header
size are untouched, and offsets inside the header do not depend on the
previous buffer contents. -/
theorem writeWavHeader_frame (buf buf2 : Nat → Nat) (dataSize i : Nat) :
    writeWavHeader buf dataSize i =
      if i < WAV_HEADER_SIZE then writeWavHeader buf2 dataSize i else buf i := by
  by_cases h : i < WAV_HEADER_SIZE
  · rw [if_pos h]
    apply foldl_setByte_apply_mem
    rw [headerFields_fst]
    exact List.mem_range.2 h
  · rw [if_neg h]
    apply foldl_setByte_apply_not_mem
    intro p hp hpi
    have hmem : p.1 ∈ (headerFields dataSize).map Prod.fst := List.mem_map_of_mem Prod.fst hp
    rw [headerFields_fst] at hmem
    have := List.mem_range.1 hmem
    have h44 : i < 44 := by omega
    exact h h44

/-- Claim C8: writeWavHeader writes only the first 44 bytes, every byte at
offset 44 or beyond is left unchanged, and the header bytes are a pure
function of dataSize and the fixed format constants (exchanging the
underlying buffer does not change them). -/
theorem claim_C8_header_frame (buf buf2 : Nat → Nat) (dataSize i : Nat) :
    writeWavHeader buf dataSize i =
      if i < WAV_HEADER_SIZE then writeWavHeader buf2 dataSize i else buf i :=
  writeWavHeader_frame buf buf2 dataSize i

/-- Claim C2: for payload sizes 0 < n up to capacity minus header size,
writing the header and then decoding it per the container contract
(tag checks and the little-endian length field at bytes 40-43) recovers
exactly n, and bytes 4-7 hold n + 36. -/
theorem claim_C2_header_roundtrip (buf : Nat → Nat) (n : Nat) (h1 : 0 < n)
    (h2 : n ≤ MAX_AUDIO_BYTES + WAV_HEADER_SIZE - WAV_HEADER_SIZE) :
    validateHeader (writeWavHeader buf n) = some n ∧
      readLE32 (writeWavHeader buf n) 4 = n + 36 := by
  have hb : n ≤ 480000 := by
    simpa [MAX_AUDIO_BYTES, WAV_HEADER_SIZE, SAMPLE_RATE, BYTES_PER_SAMPLE,
      BITS_PER_SAMPLE, MAX_RECORDING_SECS] using h2
  have hn : n % 2 ^ 32 = n := Nat.mod_eq_of_lt (by omega)
  constructor
  · rw [validateHeader, if_pos]
    · rw [readLE32]
      simp only [writeWavHeader, headerFields, wavFileSize, List.foldl, setByte,
        WAV_HEADER_SIZE, MAX_AUDIO_BYTES, SAMPLE_RATE, BYTES_PER_SAMPLE,
        BITS_PER_SAMPLE, MAX_RECORDING_SECS, CHANNELS, wavByteRate, wavBlockAlign]
      norm_num
      omega
    · simp only [writeWavHeader, headerFields, wavFileSize, List.foldl, setByte,
        WAV_HEADER_SIZE, MAX_AUDIO_BYTES, SAMPLE_RATE, BYTES_PER_SAMPLE,
        BITS_PER_SAMPLE, MAX_RECORDING_SECS, CHANNELS, wavByteRate, wavBlockAlign]
      norm_num
  · rw [readLE32]
    simp only [writeWavHeader, headerFields, wavFileSize, List.foldl, setByte,
        WAV_HEADER_SIZE, MAX_AUDIO_BYTES, SAMPLE_RATE, BYTES_PER_SAMPLE,
        BITS_PER_SAMPLE, MAX_RECORDING_SECS, CHANNELS, wavByteRate, wavBlockAlign]
    norm_num
    omega

/-! ## Lemmas about the binary32 rounding model -/

theorem roundMono {x y : ℚ} (h : x ≤ y) : round x ≤ round y := by
  rw [round_eq, round_eq]
  exact Int.floor_mono (by linarith)

theorem roundF32_pos_eq (q : ℚ) (hq : 0 < q) :
    roundF32 q =
      ((round (q * (2 : ℚ) ^ ((23 : ℤ) - Int.log 2 q)) : ℤ) : ℚ) *
        (2 : ℚ) ^ (Int.log 2 q - (23 : ℤ)) := by
  rw [roundF32, if_neg (not_le.2 hq)]

theorem roundF32_lower (q : ℚ) (hq : 0 < q) :
    (2 : ℚ) ^ (Int.log 2 q) ≤ roundF32 q := by
  rw [roundF32_pos_eq q hq]
  have htwo : (0 : ℚ) < 2 := by norm_num
  have hscale : (0 : ℚ) < (2 : ℚ) ^ ((23 : ℤ) - Int.log 2 q) := zpow_pos htwo _
  have hlog : (2 : ℚ) ^ (Int.log 2 q) ≤ q :=
    Int.zpow_log_le_self (by norm_num) hq
  have harg : (2 : ℚ) ^ (23 : ℤ) ≤ q * (2 : ℚ) ^ ((23 : ℤ) - Int.log 2 q) := by
    calc (2 : ℚ) ^ (23 : ℤ)
        = (2 : ℚ) ^ (Int.log 2 q) * (2 : ℚ) ^ ((23 : ℤ) - Int.log 2 q) := by
          rw [← zpow_add₀ (by norm_num : (2 : ℚ) ≠ 0)]
          ring_nf
      _ ≤ q * (2 : ℚ) ^ ((23 : ℤ) - Int.log 2 q) :=
          mul_le_mul_of_nonneg_right hlog hscale.le
  have hcast : ((2 : ℚ) ^ (23 : ℤ)) = (((2 : ℤ) ^ (23 : ℕ) : ℤ) : ℚ) := by
    push_cast
    norm_num
  have hround : ((2 : ℤ) ^ (23 : ℕ)) ≤ round (q * (2 : ℚ) ^ ((23 : ℤ) - Int.log 2 q)) := by
    have := roundMono (hcast ▸ harg)
    rwa [round_intCast] at this
  calc (2 : ℚ) ^ (Int.log 2 q)
      = (2 : ℚ) ^ (23 : ℤ) * (2 : ℚ) ^ (Int.log 2 q - (23 : ℤ)) := by
        rw [← zpow_add₀ (by norm_num : (2 : ℚ) ≠ 0)]
        ring_nf
    _ ≤ ((round (q * (2 : ℚ) ^ ((23 : ℤ) - Int.log 2 q)) : ℤ) : ℚ) *
          (2 : ℚ) ^ (Int.log 2 q - (23 : ℤ)) := by
        apply mul_le_mul_of_nonneg_right _ (zpow_pos htwo _).le
        rw [hcast]
        exact_mod_cast hround

theorem roundF32_upper (q : ℚ) (hq : 0 < q) :
    roundF32 q ≤ (2 : ℚ) ^ (Int.log 2 q + 1) := by
  rw [roundF32_pos_eq q hq]
  have htwo : (0 : ℚ) < 2 := by norm_num
  have hscale : (0 : ℚ) < (2 : ℚ) ^ ((23 : ℤ) - Int.log 2 q) := zpow_pos htwo _
  have hlog : q < (2 : ℚ) ^ (Int.log 2 q + 1) :=
    Int.lt_zpow_succ_log_self (by norm_num) q
  have harg : q * (2 : ℚ) ^ ((23 : ℤ) - Int.log 2 q) ≤ (2 : ℚ) ^ (24 : ℤ) := by
    calc q * (2 : ℚ) ^ ((23 : ℤ) - Int.log 2 q)
        ≤ (2 : ℚ) ^ (Int.log 2 q + 1) * (2 : ℚ) ^ ((23 : ℤ) - Int.log 2 q) :=
          mul_le_mul_of_nonneg_right hlog.le hscale.le
      _ = (2 : ℚ) ^ (24 : ℤ) := by
          rw [← zpow_add₀ (by norm_num : (2 : ℚ) ≠ 0)]
          ring_nf
  have hcast : ((2 : ℚ) ^ (24 : ℤ)) = (((2 : ℤ) ^ (24 : ℕ) : ℤ) : ℚ) := by
    push_cast
    norm_num
  have hround : round (q * (2 : ℚ) ^ ((23 : ℤ) - Int.log 2 q)) ≤ (2 : ℤ) ^ (24 : ℕ) := by
    have := roundMono (hcast ▸ harg)
    rwa [round_intCast] at this
  calc ((round (q * (2 : ℚ) ^ ((23 : ℤ) - Int.log 2 q)) : ℤ) : ℚ) *
        (2 : ℚ) ^ (Int.log 2 q - (23 : ℤ))
      ≤ (2 : ℚ) ^ (24 : ℤ) * (2 : ℚ) ^ (Int.log 2 q - (23 : ℤ)) := by
        apply mul_le_mul_of_nonneg_right _ (zpow_pos htwo _).le
        rw [hcast]
        exact_mod_cast hround
    _ = (2 : ℚ) ^ (Int.log 2 q + 1) := by
        rw [← zpow_add₀ (by norm_num : (2 : ℚ) ≠ 0)]
        ring_nf

theorem roundF32_nonneg (q : ℚ) : 0 ≤ roundF32 q := by
  rcases le_or_lt q 0 with h | h
  · rw [roundF32, if_pos h]
  · exact le_trans (zpow_pos (by norm_num : (0 : ℚ) < 2) _).le (roundF32_lower q h)

theorem roundF32_mono {a b : ℚ} (ha : 0 ≤ a) (hab : a ≤ b) :
    roundF32 a ≤ roundF32 b := by
  rcases eq_or_lt_of_le ha with h0 | hpos
  · rw [roundF32, if_pos (le_of_eq h0.symm)]
    exact roundF32_nonneg b
  · have hb : 0 < b := lt_of_lt_of_le hpos hab
    have hlog : Int.log 2 a ≤ Int.log 2 b := Int.log_mono_right hpos hab
    rcases eq_or_lt_of_le hlog with heq | hlt
    · rw [roundF32_pos_eq a hpos, roundF32_pos_eq b hb, ← heq]
      apply mul_le_mul_of_nonneg_right _ (zpow_pos (by norm_num : (0 : ℚ) < 2) _).le
      exact_mod_cast roundMono
        (mul_le_mul_of_nonneg_right hab (zpow_pos (by norm_num : (0 : ℚ) < 2) _).le)
    · calc roundF32 a
          ≤ (2 : ℚ) ^ (Int.log 2 a + 1) := roundF32_upper a hpos
        _ ≤ (2 : ℚ) ^ (Int.log 2 b) :=
            zpow_le_zpow_right₀ (by norm_num : (1 : ℚ) ≤ 2) (by omega)
        _ ≤ roundF32 b := roundF32_lower b hb

/-- Values in the binade of exponent -2 have binary32 exponent -2. -/
theorem log_of_binade_neg2 (q : ℚ) (h1 : (2 : ℚ) ^ (-2 : ℤ) ≤ q)
    (h2 : q < (2 : ℚ) ^ (-1 : ℤ)) : Int.log 2 q = -2 := by
  have hq : 0 < q := lt_of_lt_of_le (zpow_pos (by norm_num : (0 : ℚ) < 2) _) h1
  have hle : (-2 : ℤ) ≤ Int.log 2 q := (Int.zpow_le_iff_le_log (by norm_num) hq).1 h1
  have hlt : Int.log 2 q < -1 := (Int.lt_zpow_iff_log_lt (by norm_num) hq).1 h2
  omega

/-- The binary32 quotient at the boundary payload 9600 bytes: the source
quotient 0.3 rounds up to the float 10066330 / 2 ^ 25, which exceeds the
binary64 literal 0.3. -/
theorem double_lt_roundF32_at_9600 :
    DOUBLE_0_3 < roundF32 ((9600 : ℚ) / 32000) := by
  have hq : (0 : ℚ) < 9600 / 32000 := by norm_num
  have hlog : Int.log 2 ((9600 : ℚ) / 32000) = -2 := by
    apply log_of_binade_neg2
    · rw [show ((2 : ℚ) ^ (-2 : ℤ)) = 1 / 4 by norm_num]
      norm_num
    · rw [show ((2 : ℚ) ^ (-1 : ℤ)) = 1 / 2 by norm_num]
      norm_num
  rw [roundF32_pos_eq _ hq, hlog]
  have harg : (9600 : ℚ) / 32000 * (2 : ℚ) ^ ((23 : ℤ) - (-2)) = 50331648 / 5 := by
    rw [show ((23 : ℤ) - (-2)) = (25 : ℤ) by norm_num,
      show ((2 : ℚ) ^ (25 : ℤ)) = 33554432 by norm_num]
    norm_num
  rw [harg]
  have hround : round ((50331648 : ℚ) / 5) = 10066330 := by
    rw [round_eq, show (50331648 : ℚ) / 5 + 1 / 2 = 100663301 / 10 by norm_num]
    exact Int.floor_eq_iff.2 ⟨by norm_num, by norm_num⟩
  rw [hround, show ((-2 : ℤ) - 23) = (-25 : ℤ) by norm_num,
    show ((2 : ℚ) ^ (-25 : ℤ)) = 1 / 33554432 by norm_num, DOUBLE_0_3]
  norm_num

/-- The binary32 quotient at payload 9599 bytes stays below the binary64
literal 0.3. -/
theorem roundF32_at_9599_lt_double :
    roundF32 ((9599 : ℚ) / 32000) < DOUBLE_0_3 := by
  have hq : (0 : ℚ) < 9599 / 32000 := by norm_num
  have hlog : Int.log 2 ((9599 : ℚ) / 32000) = -2 := by
    apply log_of_binade_neg2
    · rw [show ((2 : ℚ) ^ (-2 : ℤ)) = 1 / 4 by norm_num]
      norm_num
    · rw [show ((2 : ℚ) ^ (-1 : ℤ)) = 1 / 2 by norm_num]
      norm_num
  rw [roundF32_pos_eq _ hq, hlog]
  have harg : (9599 : ℚ) / 32000 * (2 : ℚ) ^ ((23 : ℤ) - (-2)) = 1258160128 / 125 := by
    rw [show ((23 : ℤ) - (-2)) = (25 : ℤ) by norm_num,
      show ((2 : ℚ) ^ (25 : ℤ)) = 33554432 by norm_num]
    norm_num
  rw [harg]
  have hround : round ((1258160128 : ℚ) / 125) = 10065281 := by
    rw [round_eq, show (1258160128 : ℚ) / 125 + 1 / 2 = 2516320381 / 250 by norm_num]
    exact Int.floor_eq_iff.2 ⟨by norm_num, by norm_num⟩
  rw [hround, show ((-2 : ℤ) - 23) = (-25 : ℤ) by norm_num,
    show ((2 : ℚ) ^ (-25 : ℤ)) = 1 / 33554432 by norm_num, DOUBLE_0_3]
  norm_num

/-- The send condition of main.cpp line 415 holds exactly for payloads of
at least 9600 bytes, which is 0.3 seconds of audio at 16 kHz mono 16-bit. -/
theorem durationExceedsMin_iff (n : Nat) :
    durationExceedsMin n = true ↔ 9600 ≤ n := by
  have hden : ((SAMPLE_RATE * BYTES_PER_SAMPLE : Nat) : ℚ) = 32000 := by
    norm_num [SAMPLE_RATE, BYTES_PER_SAMPLE, BITS_PER_SAMPLE]
  rw [durationExceedsMin, hden, decide_eq_true_eq]
  constructor
  · intro h
    by_contra hlt
    push_neg at hlt
    have hle : (n : ℚ) / 32000 ≤ (9599 : ℚ) / 32000 := by
      have : (n : ℚ) ≤ 9599 := by exact_mod_cast Nat.lt_succ_iff.1 hlt
      linarith
    have hmono : roundF32 ((n : ℚ) / 32000) ≤ roundF32 ((9599 : ℚ) / 32000) :=
      roundF32_mono (by positivity) hle
    have := roundF32_at_9599_lt_double
    linarith
  · intro h
    have hle : (9600 : ℚ) / 32000 ≤ (n : ℚ) / 32000 := by
      have : (9600 : ℚ) ≤ (n : ℚ) := by exact_mod_cast h
      linarith
    have hmono : roundF32 ((9600 : ℚ) / 32000) ≤ roundF32 ((n : ℚ) / 32000) :=
      roundF32_mono (by norm_num) hle
    have := double_lt_roundF32_at_9600
    linarith

theorem claim_C2_header_roundtrip_witness :
    ((0 : Nat) < 1600 ∧ 1600 ≤ MAX_AUDIO_BYTES + WAV_HEADER_SIZE - WAV_HEADER_SIZE) ∧
      (validateHeader (writeWavHeader (fun _ => 0) 1600) = some 1600 ∧
        readLE32 (writeWavHeader (fun _ => 0) 1600) 4 = 1600 + 36) :=
  ⟨⟨by decide, by decide⟩,
    claim_C2_header_roundtrip (fun _ => 0) 1600 (by decide) (by decide)⟩

/-! ## Unfolding lemmas for the capture path and the main loop -/

theorem captureAudioChunk_notRecording (s : SatState) (r : I2SRead)
    (h : s.isRecording = false) : captureAudioChunk s r = (s, []) := by
  rw [captureAudioChunk, if_pos h]

theorem captureAudioChunk_fits (s : SatState) (r : I2SRead)
    (hrec : s.isRecording = true) (hok : r.ok = true) (hpos : 0 < r.bytesRead)
    (hle : s.audioBufferPos + r.bytesRead ≤ MAX_AUDIO_BYTES + WAV_HEADER_SIZE) :
    captureAudioChunk s r =
      ({ s with audioBufferPos := s.audioBufferPos + r.bytesRead },
       [Action.copyToBuffer s.audioBufferPos r.bytesRead]) := by
  rw [captureAudioChunk, if_neg (by simp [hrec]), if_pos ⟨hok, hpos⟩, if_pos hle]

theorem captureAudioChunk_full (s : SatState) (r : I2SRead)
    (hrec : s.isRecording = true) (hok : r.ok = true) (hpos : 0 < r.bytesRead)
    (hfull : MAX_AUDIO_BYTES + WAV_HEADER_SIZE < s.audioBufferPos + r.bytesRead) :
    captureAudioChunk s r =
      ({ s with isRecording := false, ledOn := false }, [Action.bufferFullStop]) := by
  rw [captureAudioChunk, if_neg (by simp [hrec]), if_pos ⟨hok, hpos⟩,
    if_neg (not_le.2 hfull)]

theorem loopIter_held_recording (s : SatState) (r : I2SRead) (env : HttpEnv)
    (hlast : s.lastButtonState = false) (hrec : s.isRecording = true) :
    loopIter s { buttonState := false, i2s := r, env := env } =
      ({ (captureAudioChunk s r).1 with lastButtonState := false },
       (captureAudioChunk s r).2) := by
  simp [loopIter, hlast, hrec]

theorem loopIter_release_send (s : SatState) (r : I2SRead) (env : HttpEnv)
    (hlast : s.lastButtonState = false) (hrec : s.isRecording = true)
    (hdur : durationExceedsMin (s.audioBufferPos - WAV_HEADER_SIZE) = true) :
    loopIter s { buttonState := true, i2s := r, env := env } =
      ({ (sendAudioToServer { s with isRecording := false, ledOn := false } env).1 with
          lastButtonState := true },
       Action.stopRec :: Action.headerWrite (s.audioBufferPos - WAV_HEADER_SIZE) ::
         Action.sendInvoked ::
           (sendAudioToServer { s with isRecording := false, ledOn := false } env).2) := by
  simp [loopIter, hlast, hrec, stopRecording, hdur]

theorem loopIter_release_discard (s : SatState) (r : I2SRead) (env : HttpEnv)
    (hlast : s.lastButtonState = false) (hrec : s.isRecording = true)
    (hdur : durationExceedsMin (s.audioBufferPos - WAV_HEADER_SIZE) = false) :
    loopIter s { buttonState := true, i2s := r, env := env } =
      ({ s with isRecording := false, ledOn := false, lastButtonState := true },
       [Action.stopRec, Action.headerWrite (s.audioBufferPos - WAV_HEADER_SIZE),
        Action.discardShort]) := by
  simp [loopIter, hlast, hrec, stopRecording, hdur]

/-! ## Lemmas about sendAudioToServer and its read loop -/

theorem readLoopRun_actions (responseLen : Nat) (polls : List (Nat × Nat)) :
    ∀ b, ∀ a ∈ (readLoopRun responseLen b polls).2, isCopyResp a = true := by
  induction polls with
  | nil =>
    intro b a ha
    rw [readLoopRun] at ha
    split at ha <;> simp at ha
  | cons p rest ih =>
    intro b a ha
    rw [readLoopRun] at ha
    split at ha
    · split at ha
      · simp only [List.mem_cons] at ha
        rcases ha with h1 | h2
        · rw [h1]; rfl
        · exact ih _ a h2
      · exact ih _ a ha
    · simp at ha

theorem sendAudioToServer_nowifi (s : SatState) (env : HttpEnv)
    (hw : env.wifiConnected = false) :
    sendAudioToServer s env = (s, [Action.wifiSkipReport]) := by
  rw [sendAudioToServer, if_pos hw]

theorem sendAudioToServer_error (s : SatState) (env : HttpEnv)
    (hw : env.wifiConnected = true) (hc : env.httpCode ≠ 200) :
    sendAudioToServer s env =
      ({ s with ledOn := false },
       [Action.httpPost s.audioBufferPos, Action.httpErrorReport env.httpCode]) := by
  simp [sendAudioToServer, hw, hc]

theorem sendAudioToServer_text (s : SatState) (env : HttpEnv)
    (hw : env.wifiConnected = true) (hc : env.httpCode = 200)
    (hcl : classifiedAudio env = false) :
    sendAudioToServer s env =
      ({ s with ledOn := false },
       [Action.httpPost s.audioBufferPos, Action.printBody]) := by
  simp [sendAudioToServer, hw, hc, hcl]

theorem sendAudioToServer_toolarge (s : SatState) (env : HttpEnv)
    (hw : env.wifiConnected = true) (hc : env.httpCode = 200)
    (hcl : classifiedAudio env = true)
    (hbig : ((MAX_AUDIO_BYTES + WAV_HEADER_SIZE : Nat) : Int) < env.responseLen) :
    sendAudioToServer s env =
      ({ s with ledOn := false },
       [Action.httpPost s.audioBufferPos, Action.tooLargeReport]) := by
  have hbig2 : ¬env.responseLen ≤ (MAX_AUDIO_BYTES : Int) + (WAV_HEADER_SIZE : Int) := by
    push_cast at hbig
    omega
  simp [sendAudioToServer, hw, hc, hcl, hbig2]

theorem sendAudioToServer_audio (s : SatState) (env : HttpEnv)
    (hw : env.wifiConnected = true) (hc : env.httpCode = 200)
    (hcl : classifiedAudio env = true)
    (hfits : env.responseLen ≤ ((MAX_AUDIO_BYTES + WAV_HEADER_SIZE : Nat) : Int)) :
    sendAudioToServer s env =
      ({ s with ledOn := false },
       Action.httpPost s.audioBufferPos ::
         ((readLoopRun env.responseLen.toNat 0 env.polls).2 ++
           match (readLoopRun env.responseLen.toNat 0 env.polls).1 with
           | ReadLoopResult.done b => [Action.playAudio b]
           | ReadLoopResult.pending _ => [])) := by
  simp only [sendAudioToServer, hw, hc, hcl, hfits, Bool.true_eq_false, if_false,
    if_pos, if_true, ite_true, ite_false, reduceIte]
  cases hres : (readLoopRun env.responseLen.toNat 0 env.polls).1 <;> simp [hres]

theorem sendAudioToServer_fields (s : SatState) (env : HttpEnv) :
    (sendAudioToServer s env).1.audioBufferPos = s.audioBufferPos ∧
      (sendAudioToServer s env).1.isRecording = s.isRecording ∧
      (sendAudioToServer s env).1.lastButtonState = s.lastButtonState := by
  cases hw : env.wifiConnected with
  | false => rw [sendAudioToServer_nowifi s env hw]; exact ⟨rfl, rfl, rfl⟩
  | true =>
    by_cases hc : env.httpCode = 200
    · by_cases hcl : classifiedAudio env = true
      · by_cases hfits : env.responseLen ≤ ((MAX_AUDIO_BYTES + WAV_HEADER_SIZE : Nat) : Int)
        · rw [sendAudioToServer_audio s env hw hc hcl hfits]
          exact ⟨rfl, rfl, rfl⟩
        · rw [sendAudioToServer_toolarge s env hw hc hcl (not_le.1 hfits)]
          exact ⟨rfl, rfl, rfl⟩
      · rw [sendAudioToServer_text s env hw hc (by simpa using hcl)]
        exact ⟨rfl, rfl, rfl⟩
    · rw [sendAudioToServer_error s env hw hc]
      exact ⟨rfl, rfl, rfl⟩

/-- Any action predicate that is false on response copies counts zero in a
read-loop trace. -/
theorem readLoopRun_countP_zero (responseLen b : Nat) (polls : List (Nat × Nat))
    (p : Action → Bool) (hp : ∀ pos len, p (Action.copyRespToBuffer pos len) = false) :
    (readLoopRun responseLen b polls).2.countP p = 0 := by
  rw [List.countP_eq_zero]
  intro a ha
  have hcp := readLoopRun_actions responseLen polls b a ha
  cases a <;> simp [isCopyResp] at hcp ⊢
  exact hp _ _

/-! ## Composition lemmas for the iterated loop -/

theorem runLoop_append (s : SatState) (l1 l2 : List LoopInput) :
    runLoop s (l1 ++ l2) =
      ((runLoop (runLoop s l1).1 l2).1,
       (runLoop s l1).2 ++ (runLoop (runLoop s l1).1 l2).2) := by
  induction l1 generalizing s with
  | nil => simp [runLoop]
  | cons i rest ih =>
    simp only [List.cons_append, runLoop, List.append_eq]
    rw [ih]
    simp [List.append_assoc]

theorem runLoop_singleton (s : SatState) (i : LoopInput) :
    runLoop s [i] = ((loopIter s i).1, (loopIter s i).2) := by
  simp [runLoop]

/-- A press-and-hold phase of k iterations that all fit: the cursor
advances by 1024 bytes per iteration and the trace consists purely of
in-order capture copies. -/
theorem runLoop_replicate_held (k : Nat) :
    ∀ (pos : Nat) (led : Bool),
      pos + 1024 * k ≤ MAX_AUDIO_BYTES + WAV_HEADER_SIZE →
      (runLoop
            { audioBufferPos := pos, isRecording := true,
              lastButtonState := false, ledOn := led }
            (List.replicate k heldInput)).1 =
          { audioBufferPos := pos + 1024 * k, isRecording := true,
            lastButtonState := false, ledOn := led } ∧
        ∀ a ∈ (runLoop
            { audioBufferPos := pos, isRecording := true,
              lastButtonState := false, ledOn := led }
            (List.replicate k heldInput)).2, isCopyCapture a = true := by
  induction k with
  | zero =>
    intro pos led _
    refine ⟨by simp [runLoop], ?_⟩
    intro a ha
    simp [runLoop] at ha
  | succ k ih =>
    intro pos led h3
    have hstep : loopIter
        { audioBufferPos := pos, isRecording := true,
          lastButtonState := false, ledOn := led } heldInput =
        ({ audioBufferPos := pos + 1024, isRecording := true,
           lastButtonState := false, ledOn := led },
         [Action.copyToBuffer pos 1024]) := by
      have hu : heldInput =
          { buttonState := false, i2s := { ok := true, bytesRead := 1024 },
            env := idleEnv } := rfl
      rw [hu, loopIter_held_recording _ _ _ rfl rfl,
        captureAudioChunk_fits _ _ rfl rfl (by norm_num)
          (by show pos + 1024 ≤ MAX_AUDIO_BYTES + WAV_HEADER_SIZE; omega)]
    have harith : pos + 1024 + 1024 * k = pos + 1024 * (k + 1) := by ring
    have ihk := ih (pos + 1024) led (by omega)
    constructor
    · rw [List.replicate_succ]
      simp only [runLoop, hstep]
      rw [ihk.1, harith]
    · rw [List.replicate_succ]
      simp only [runLoop, hstep]
      intro a ha
      simp only [List.cons_append, List.nil_append, List.mem_cons] at ha
      rcases ha with h1 | h2
      · rw [h1]; rfl
      · exact ihk.2 a h2

/-! ## Claim C1 -/

set_option maxRecDepth 8000

/-- Claim C1 fails on the code: in a concrete recording from the initial
state (press, 468 accepted 1024-byte chunks, one overflowing chunk,
release), the buffer-full stop occurs and the partial 479232-byte capture
satisfies the minimum-duration policy, yet stopRecording is never invoked,
no header is finalized and the transport exchange is never invoked, so the
partial audio is discarded instead of sent. -/
theorem claim_C1_counterexample :
    Action.bufferFullStop ∈ (runLoop initState c1Inputs).2 ∧
      (runLoop initState c1Inputs).1.audioBufferPos = 479276 ∧
      durationExceedsMin
          ((runLoop initState c1Inputs).1.audioBufferPos - WAV_HEADER_SIZE) = true ∧
      Action.stopRec ∉ (runLoop initState c1Inputs).2 ∧
      Action.sendInvoked ∉ (runLoop initState c1Inputs).2 ∧
      (runLoop initState c1Inputs).2.countP isHeaderWrite = 0 ∧
      (runLoop initState c1Inputs).1.isRecording = false := by
  have h1 : runLoop initState [heldInput] =
      ({ audioBufferPos := 1068, isRecording := true, lastButtonState := false,
         ledOn := true }, [Action.startRec, Action.copyToBuffer 44 1024]) := by
    decide
  have h2 := runLoop_replicate_held 467 1068 true
    (by norm_num [MAX_AUDIO_BYTES, WAV_HEADER_SIZE, SAMPLE_RATE, BYTES_PER_SAMPLE,
      BITS_PER_SAMPLE, MAX_RECORDING_SECS])
  have h2a := h2.1
  have h2b := h2.2
  rw [show (1068 + 1024 * 467 : Nat) = 479276 from by norm_num] at h2a
  have h3 : runLoop
      { audioBufferPos := 479276, isRecording := true, lastButtonState := false,
        ledOn := true } [heldInput] =
      ({ audioBufferPos := 479276, isRecording := false, lastButtonState := false,
         ledOn := false }, [Action.bufferFullStop]) := by
    decide
  have h4 : runLoop
      { audioBufferPos := 479276, isRecording := false, lastButtonState := false,
        ledOn := false } [releaseInput] =
      ({ audioBufferPos := 479276, isRecording := false, lastButtonState := true,
         ledOn := false }, []) := by
    decide
  have e : runLoop initState c1Inputs =
      ({ audioBufferPos := 479276, isRecording := false, lastButtonState := true,
         ledOn := false },
       [Action.startRec, Action.copyToBuffer 44 1024] ++
         ((runLoop
             { audioBufferPos := 1068, isRecording := true, lastButtonState := false,
               ledOn := true } (List.replicate 467 heldInput)).2 ++
           ([Action.bufferFullStop] ++ []))) := by
    rw [show c1Inputs =
        [heldInput] ++
          (List.replicate 467 heldInput ++ ([heldInput] ++ [releaseInput])) from rfl]
    rw [runLoop_append, h1, runLoop_append, h2a, runLoop_append, h3, h4]
  have hcap : ∀ a : Action, isCopyCapture a = true →
      isHeaderWrite a = false ∧ a ≠ Action.stopRec ∧ a ≠ Action.sendInvoked := by
    intro a
    cases a <;> simp [isCopyCapture, isHeaderWrite]
  rw [e]
  refine ⟨by simp, rfl, ?_, ?_, ?_, ?_, rfl⟩
  · exact (durationExceedsMin_iff _).2 (by norm_num [WAV_HEADER_SIZE])
  · intro hmem
    simp only [List.mem_append, List.mem_cons, List.mem_singleton,
      List.not_mem_nil, or_false] at hmem
    rcases hmem with (h | h) | (h | h)
    · exact absurd h (by decide)
    · exact absurd h (by decide)
    · exact (hcap _ (h2b _ h)).2.1 rfl
    · exact absurd h (by decide)
  · intro hmem
    simp only [List.mem_append, List.mem_cons, List.mem_singleton,
      List.not_mem_nil, or_false] at hmem
    rcases hmem with (h | h) | (h | h)
    · exact absurd h (by decide)
    · exact absurd h (by decide)
    · exact (hcap _ (h2b _ h)).2.2 rfl
    · exact absurd h (by decide)
  · rw [List.countP_append, List.countP_append, List.countP_append]
    have hz : (runLoop
        { audioBufferPos := 1068, isRecording := true, lastButtonState := false,
          ledOn := true } (List.replicate 467 heldInput)).2.countP isHeaderWrite = 0 := by
      rw [List.countP_eq_zero]
      intro a ha
      rw [(hcap a (h2b a ha)).1]
      simp
    rw [hz]
    decide

/-- Claim C1 amended: when appending a captured chunk would exceed the
buffer capacity, capture is forcibly stopped with nothing written and the
cursor retained, but the system does not proceed as on a release: because
the release handler of loop() requires isRecording, the subsequent button
release finalizes no header and invokes no transport exchange, so the
partial audio is discarded. -/
theorem claim_C1_amended (s : SatState) (r : I2SRead) (env env2 : HttpEnv)
    (hrec : s.isRecording = true) (hlast : s.lastButtonState = false)
    (hok : r.ok = true) (hpos : 0 < r.bytesRead)
    (hfull : MAX_AUDIO_BYTES + WAV_HEADER_SIZE < s.audioBufferPos + r.bytesRead) :
    (loopIter s { buttonState := false, i2s := r, env := env }).2 =
        [Action.bufferFullStop] ∧
      (loopIter s { buttonState := false, i2s := r, env := env }).1.isRecording = false ∧
      (loopIter s { buttonState := false, i2s := r, env := env }).1.audioBufferPos =
        s.audioBufferPos ∧
      (loopIter (loopIter s { buttonState := false, i2s := r, env := env }).1
          { buttonState := true, i2s := r, env := env2 }).2 = [] ∧
      (loopIter (loopIter s { buttonState := false, i2s := r, env := env }).1
          { buttonState := true, i2s := r, env := env2 }).1.audioBufferPos =
        s.audioBufferPos ∧
      (loopIter (loopIter s { buttonState := false, i2s := r, env := env }).1
          { buttonState := true, i2s := r, env := env2 }).1.isRecording = false := by
  have e1 : loopIter s { buttonState := false, i2s := r, env := env } =
      ({ s with isRecording := false, ledOn := false, lastButtonState := false },
       [Action.bufferFullStop]) := by
    rw [loopIter_held_recording _ _ _ hlast hrec,
      captureAudioChunk_full _ _ hrec hok hpos hfull]
  have e2 : loopIter
      { s with isRecording := false, ledOn := false, lastButtonState := false }
      { buttonState := true, i2s := r, env := env2 } =
      ({ s with isRecording := false, ledOn := false, lastButtonState := true }, []) := by
    simp [loopIter]
  rw [e1, e2]
  exact ⟨rfl, rfl, rfl, rfl, rfl, rfl⟩

theorem claim_C1_amended_witness :
    ((recStateAt 479276).isRecording = true ∧
        (recStateAt 479276).lastButtonState = false ∧
        MAX_AUDIO_BYTES + WAV_HEADER_SIZE <
          (recStateAt 479276).audioBufferPos +
            ({ ok := true, bytesRead := 1024 } : I2SRead).bytesRead) ∧
      ((loopIter (recStateAt 479276)
            { buttonState := false, i2s := { ok := true, bytesRead := 1024 },
              env := idleEnv }).2 = [Action.bufferFullStop] ∧
        (loopIter (recStateAt 479276)
            { buttonState := false, i2s := { ok := true, bytesRead := 1024 },
              env := idleEnv }).1.isRecording = false ∧
        (loopIter (recStateAt 479276)
            { buttonState := false, i2s := { ok := true, bytesRead := 1024 },
              env := idleEnv }).1.audioBufferPos = (recStateAt 479276).audioBufferPos ∧
        (loopIter (loopIter (recStateAt 479276)
            { buttonState := false, i2s := { ok := true, bytesRead := 1024 },
              env := idleEnv }).1
            { buttonState := true, i2s := { ok := true, bytesRead := 1024 },
              env := idleEnv }).2 = [] ∧
        (loopIter (loopIter (recStateAt 479276)
            { buttonState := false, i2s := { ok := true, bytesRead := 1024 },
              env := idleEnv }).1
            { buttonState := true, i2s := { ok := true, bytesRead := 1024 },
              env := idleEnv }).1.audioBufferPos = (recStateAt 479276).audioBufferPos ∧
        (loopIter (loopIter (recStateAt 479276)
            { buttonState := false, i2s := { ok := true, bytesRead := 1024 },
              env := idleEnv }).1
            { buttonState := true, i2s := { ok := true, bytesRead := 1024 },
              env := idleEnv }).1.isRecording = false) :=
  ⟨⟨rfl, rfl, by decide⟩,
    claim_C1_amended (recStateAt 479276) { ok := true, bytesRead := 1024 }
      idleEnv idleEnv rfl rfl rfl (by decide) (by decide)⟩

/-! ## Claims C4 and C9 -/

theorem sendAudioToServer_countP_sendInvoked (s : SatState) (env : HttpEnv) :
    (sendAudioToServer s env).2.countP isSendInvoked = 0 := by
  cases hw : env.wifiConnected with
  | false => rw [sendAudioToServer_nowifi s env hw]; rfl
  | true =>
    by_cases hc : env.httpCode = 200
    · by_cases hcl : classifiedAudio env = true
      · by_cases hfits :
            env.responseLen ≤ ((MAX_AUDIO_BYTES + WAV_HEADER_SIZE : Nat) : Int)
        · rw [sendAudioToServer_audio s env hw hc hcl hfits]
          have hz := readLoopRun_countP_zero env.responseLen.toNat 0 env.polls
            isSendInvoked (fun _ _ => rfl)
          cases hres : (readLoopRun env.responseLen.toNat 0 env.polls).1 <;>
            simp [hres, List.countP_cons, List.countP_append, isSendInvoked, hz]
        · rw [sendAudioToServer_toolarge s env hw hc hcl (not_le.1 hfits)]; rfl
      · rw [sendAudioToServer_text s env hw hc (by simpa using hcl)]; rfl
    · rw [sendAudioToServer_error s env hw hc]; rfl

/-- Claim C4: on a release edge, the transport client is invoked exactly
when the captured payload reaches 0.3 seconds times the byte rate (9600
bytes); below that it is never invoked, and in both cases the controller
ends the iteration no longer recording (back to Idle).  The capacity bound
keeps the payload in the range where the float model is bit-exact. -/
theorem claim_C4_min_duration_gate (s : SatState) (r : I2SRead) (env : HttpEnv)
    (hrec : s.isRecording = true) (hlast : s.lastButtonState = false)
    (hcap : s.audioBufferPos ≤ MAX_AUDIO_BYTES + WAV_HEADER_SIZE) :
    (loopIter s { buttonState := true, i2s := r, env := env }).2.countP isSendInvoked =
        (if (3 : ℚ) / 10 * ((SAMPLE_RATE * BYTES_PER_SAMPLE : Nat) : ℚ) ≤
            ((s.audioBufferPos - WAV_HEADER_SIZE : Nat) : ℚ) then 1 else 0) ∧
      (loopIter s { buttonState := true, i2s := r, env := env }).1.isRecording = false := by
  have hden : ((SAMPLE_RATE * BYTES_PER_SAMPLE : Nat) : ℚ) = 32000 := by
    norm_num [SAMPLE_RATE, BYTES_PER_SAMPLE, BITS_PER_SAMPLE]
  have hiff : ((3 : ℚ) / 10 * ((SAMPLE_RATE * BYTES_PER_SAMPLE : Nat) : ℚ) ≤
      ((s.audioBufferPos - WAV_HEADER_SIZE : Nat) : ℚ)) ↔
      9600 ≤ s.audioBufferPos - WAV_HEADER_SIZE := by
    rw [hden]
    constructor
    · intro h
      have h2 : (9600 : ℚ) ≤ ((s.audioBufferPos - WAV_HEADER_SIZE : Nat) : ℚ) := by
        linarith
      exact_mod_cast h2
    · intro h
      have h2 : (9600 : ℚ) ≤ ((s.audioBufferPos - WAV_HEADER_SIZE : Nat) : ℚ) := by
        exact_mod_cast h
      linarith
  by_cases hdur : durationExceedsMin (s.audioBufferPos - WAV_HEADER_SIZE) = true
  · have h96 : 9600 ≤ s.audioBufferPos - WAV_HEADER_SIZE :=
      (durationExceedsMin_iff _).1 hdur
    rw [loopIter_release_send s r env hlast hrec hdur]
    constructor
    · rw [if_pos (hiff.2 h96)]
      simp [List.countP_cons, isSendInvoked, sendAudioToServer_countP_sendInvoked]
    · have hf := (sendAudioToServer_fields
        { s with isRecording := false, ledOn := false } env).2.1
      simpa using hf
  · simp only [Bool.not_eq_true] at hdur
    rw [loopIter_release_discard s r env hlast hrec hdur]
    have h96 : ¬9600 ≤ s.audioBufferPos - WAV_HEADER_SIZE := by
      intro h
      rw [(durationExceedsMin_iff _).2 h] at hdur
      cases hdur
    exact ⟨by rw [if_neg fun hq => h96 (hiff.1 hq)]; rfl, rfl⟩

theorem claim_C4_min_duration_gate_witness :
    ((recStateAt 9644).isRecording = true ∧
        (recStateAt 9644).lastButtonState = false ∧
        (recStateAt 9644).audioBufferPos ≤ MAX_AUDIO_BYTES + WAV_HEADER_SIZE) ∧
      ((loopIter (recStateAt 9644)
            { buttonState := true, i2s := { ok := true, bytesRead := 0 },
              env := idleEnv }).2.countP isSendInvoked =
          (if (3 : ℚ) / 10 * ((SAMPLE_RATE * BYTES_PER_SAMPLE : Nat) : ℚ) ≤
              (((recStateAt 9644).audioBufferPos - WAV_HEADER_SIZE : Nat) : ℚ) then 1
            else 0) ∧
        (loopIter (recStateAt 9644)
            { buttonState := true, i2s := { ok := true, bytesRead := 0 },
              env := idleEnv }).1.isRecording = false) :=
  ⟨⟨rfl, rfl, by decide⟩,
    claim_C4_min_duration_gate (recStateAt 9644) { ok := true, bytesRead := 0 }
      idleEnv rfl rfl (by decide)⟩

/-- Claim C9: releasing a sufficiently long utterance while the link is
down performs no HTTP request (only a local skip report), writes no
response bytes, plays nothing, leaves the cursor unchanged and returns the
controller to Idle. -/
theorem claim_C9_link_down (s : SatState) (r : I2SRead) (env : HttpEnv)
    (hrec : s.isRecording = true) (hlast : s.lastButtonState = false)
    (hw : env.wifiConnected = false)
    (hlong : 9600 ≤ s.audioBufferPos - WAV_HEADER_SIZE) :
    (loopIter s { buttonState := true, i2s := r, env := env }).2 =
        [Action.stopRec, Action.headerWrite (s.audioBufferPos - WAV_HEADER_SIZE),
         Action.sendInvoked, Action.wifiSkipReport] ∧
      (loopIter s { buttonState := true, i2s := r, env := env }).1.audioBufferPos =
        s.audioBufferPos ∧
      (loopIter s { buttonState := true, i2s := r, env := env }).1.isRecording = false ∧
      (loopIter s { buttonState := true, i2s := r, env := env }).2.countP isHttpPost = 0 ∧
      (loopIter s { buttonState := true, i2s := r, env := env }).2.countP isCopyResp = 0 ∧
      (loopIter s { buttonState := true, i2s := r, env := env }).2.countP isPlay = 0 := by
  have hdur := (durationExceedsMin_iff _).2 hlong
  rw [loopIter_release_send s r env hlast hrec hdur, sendAudioToServer_nowifi _ env hw]
  exact ⟨rfl, rfl, rfl, rfl, rfl, rfl⟩

theorem claim_C9_link_down_witness :
    ((recStateAt 9644).isRecording = true ∧
        (recStateAt 9644).lastButtonState = false ∧
        envNoWifi.wifiConnected = false ∧
        9600 ≤ (recStateAt 9644).audioBufferPos - WAV_HEADER_SIZE) ∧
      ((loopIter (recStateAt 9644)
            { buttonState := true, i2s := { ok := true, bytesRead := 0 },
              env := envNoWifi }).2 =
          [Action.stopRec,
           Action.headerWrite ((recStateAt 9644).audioBufferPos - WAV_HEADER_SIZE),
           Action.sendInvoked, Action.wifiSkipReport] ∧
        (loopIter (recStateAt 9644)
            { buttonState := true, i2s := { ok := true, bytesRead := 0 },
              env := envNoWifi }).1.audioBufferPos = (recStateAt 9644).audioBufferPos ∧
        (loopIter (recStateAt 9644)
            { buttonState := true, i2s := { ok := true, bytesRead := 0 },
              env := envNoWifi }).1.isRecording = false ∧
        (loopIter (recStateAt 9644)
            { buttonState := true, i2s := { ok := true, bytesRead := 0 },
              env := envNoWifi }).2.countP isHttpPost = 0 ∧
        (loopIter (recStateAt 9644)
            { buttonState := true, i2s := { ok := true, bytesRead := 0 },
              env := envNoWifi }).2.countP isCopyResp = 0 ∧
        (loopIter (recStateAt 9644)
            { buttonState := true, i2s := { ok := true, bytesRead := 0 },
              env := envNoWifi }).2.countP isPlay = 0) :=
  ⟨⟨rfl, rfl, rfl, by decide⟩,
    claim_C9_link_down (recStateAt 9644) { ok := true, bytesRead := 0 }
      envNoWifi rfl rfl rfl (by decide)⟩

/-! ## Claims C5 and C10 -/

/-- Claim C5: a successful exchange classified as audio whose declared
length exceeds the buffer capacity is aborted before any response byte is
written into the shared buffer: the too-large report is emitted, no
response copy and no playback occur, and the cursor is untouched. -/
theorem claim_C5_response_too_large (s : SatState) (env : HttpEnv)
    (hw : env.wifiConnected = true) (hc : env.httpCode = 200)
    (hct : audioWavChars.isPrefixOf env.contentType = true)
    (hlen : (WAV_HEADER_SIZE : Int) < env.responseLen)
    (hbig : ((MAX_AUDIO_BYTES + WAV_HEADER_SIZE : Nat) : Int) < env.responseLen) :
    (sendAudioToServer s env).2 =
        [Action.httpPost s.audioBufferPos, Action.tooLargeReport] ∧
      (sendAudioToServer s env).2.countP isCopyResp = 0 ∧
      (sendAudioToServer s env).2.countP isPlay = 0 ∧
      (sendAudioToServer s env).1.audioBufferPos = s.audioBufferPos := by
  have hcl : classifiedAudio env = true := by
    simp [classifiedAudio, hct, hlen]
  rw [sendAudioToServer_toolarge s env hw hc hcl hbig]
  exact ⟨rfl, rfl, rfl, rfl⟩

theorem claim_C5_response_too_large_witness :
    (envTooLarge.wifiConnected = true ∧ envTooLarge.httpCode = 200 ∧
        audioWavChars.isPrefixOf envTooLarge.contentType = true ∧
        (WAV_HEADER_SIZE : Int) < envTooLarge.responseLen ∧
        ((MAX_AUDIO_BYTES + WAV_HEADER_SIZE : Nat) : Int) < envTooLarge.responseLen) ∧
      ((sendAudioToServer initState envTooLarge).2 =
          [Action.httpPost initState.audioBufferPos, Action.tooLargeReport] ∧
        (sendAudioToServer initState envTooLarge).2.countP isCopyResp = 0 ∧
        (sendAudioToServer initState envTooLarge).2.countP isPlay = 0 ∧
        (sendAudioToServer initState envTooLarge).1.audioBufferPos =
          initState.audioBufferPos) :=
  ⟨⟨rfl, rfl, by decide, by decide, by decide⟩,
    claim_C5_response_too_large initState envTooLarge rfl rfl (by decide) (by decide)
      (by decide)⟩

/-- Claim C10: playback and response-byte writes happen only on HTTP
status exactly 200; every other status (success-range codes such as 201 or
204 included, and transport-level negative codes) produces one POST, one
error report, no retry, no buffer write, no playback and no state change. -/
theorem claim_C10_status_gate (s : SatState) (env : HttpEnv)
    (hw : env.wifiConnected = true) (hc : env.httpCode ≠ 200) :
    (sendAudioToServer s env).2 =
        [Action.httpPost s.audioBufferPos, Action.httpErrorReport env.httpCode] ∧
      (sendAudioToServer s env).2.countP isPlay = 0 ∧
      (sendAudioToServer s env).2.countP isCopyResp = 0 ∧
      (sendAudioToServer s env).2.countP isHttpPost = 1 ∧
      (sendAudioToServer s env).1.audioBufferPos = s.audioBufferPos := by
  rw [sendAudioToServer_error s env hw hc]
  exact ⟨rfl, rfl, rfl, rfl, rfl⟩

theorem claim_C10_status_gate_witness :
    (env201.wifiConnected = true ∧ env201.httpCode ≠ 200) ∧
      ((sendAudioToServer initState env201).2 =
          [Action.httpPost initState.audioBufferPos,
           Action.httpErrorReport env201.httpCode] ∧
        (sendAudioToServer initState env201).2.countP isPlay = 0 ∧
        (sendAudioToServer initState env201).2.countP isCopyResp = 0 ∧
        (sendAudioToServer initState env201).2.countP isHttpPost = 1 ∧
        (sendAudioToServer initState env201).1.audioBufferPos =
          initState.audioBufferPos) :=
  ⟨⟨rfl, by decide⟩, claim_C10_status_gate initState env201 rfl (by decide)⟩

/-! ## Claim C7 -/

theorem readLoopRun_done_eq (responseLen : Nat) (polls : List (Nat × Nat)) :
    ∀ b b' : Nat, b ≤ responseLen →
      (readLoopRun responseLen b polls).1 = ReadLoopResult.done b' →
      b' = responseLen := by
  induction polls with
  | nil =>
    intro b b' hb hdone
    rw [readLoopRun] at hdone
    split at hdone
    · simp at hdone
    · simp at hdone
      omega
  | cons p rest ih =>
    intro b b' hb hdone
    simp only [readLoopRun] at hdone
    split at hdone
    · split at hdone
      · have h1 := Nat.min_le_right p.1 (responseLen - b)
        have h2 := Nat.min_le_right p.2 (min p.1 (responseLen - b))
        exact ih (b + min p.2 (min p.1 (responseLen - b))) b' (by omega) hdone
      · exact ih b b' hb hdone
    · simp at hdone
      omega

/-- Claim C7: the response read loop treats a poll with zero available
bytes as a plain wait (the loop state is unchanged and the loop is not
exited, whatever was or is still to be delivered), and whenever the loop
terminates, the cumulative byte count equals the declared response
length exactly. -/
theorem claim_C7_read_loop (responseLen b b' g : Nat) (polls : List (Nat × Nat))
    (hb : b ≤ responseLen)
    (hdone : (readLoopRun responseLen b polls).1 = ReadLoopResult.done b') :
    b' = responseLen ∧
      readLoopRun responseLen b ((0, g) :: polls) = readLoopRun responseLen b polls := by
  constructor
  · exact readLoopRun_done_eq responseLen polls b b' hb hdone
  · by_cases hlt : b < responseLen
    · rw [readLoopRun]
      simp [hlt]
    · cases polls with
      | nil =>
        rw [readLoopRun, readLoopRun]
        simp [hlt]
      | cons q rest =>
        rw [readLoopRun, readLoopRun]
        simp [hlt]

theorem claim_C7_read_loop_witness :
    ((0 : Nat) ≤ 5 ∧
        (readLoopRun 5 0 [(2, 2), (3, 3)]).1 = ReadLoopResult.done 5) ∧
      ((5 : Nat) = 5 ∧
        readLoopRun 5 0 ((0, 7) :: [(2, 2), (3, 3)]) = readLoopRun 5 0 [(2, 2), (3, 3)]) :=
  ⟨⟨by decide, by decide⟩, claim_C7_read_loop 5 0 5 7 [(2, 2), (3, 3)] (by decide) (by decide)⟩

/-! ## Claim C6 -/

/-- Claim C6 fails on the code: this response is classified as audio by
the classification criterion of the claim (content type audio/wav and
declared length above the header size), yet playback is never invoked,
because its declared length also exceeds the buffer capacity. -/
theorem claim_C6_counterexample :
    classifiedAudio envTooLarge = true ∧
      (sendAudioToServer initState envTooLarge).2.countP isPlay = 0 := by
  constructor
  · decide
  · decide

/-- Claim C6 amended: a response is classified audio exactly when its
content type starts with audio/wav and its declared length exceeds the
44-byte header; an audio-classified response is played exactly once
provided its declared length also fits the buffer capacity and the read
loop completes, and in every other case (text classification, or audio too
large, or body never completing) playback is never invoked; responses not
classified audio write nothing into the shared buffer. -/
theorem claim_C6_amended (s : SatState) (env : HttpEnv)
    (hw : env.wifiConnected = true) (hc : env.httpCode = 200) :
    (sendAudioToServer s env).2.countP isPlay =
        (if classifiedAudio env = true ∧
            env.responseLen ≤ ((MAX_AUDIO_BYTES + WAV_HEADER_SIZE : Nat) : Int) ∧
            isDone (readLoopRun env.responseLen.toNat 0 env.polls).1 = true then 1
          else 0) ∧
      (sendAudioToServer s env).2.countP isCopyResp =
        (if classifiedAudio env = true ∧
            env.responseLen ≤ ((MAX_AUDIO_BYTES + WAV_HEADER_SIZE : Nat) : Int) then
          (readLoopRun env.responseLen.toNat 0 env.polls).2.countP isCopyResp
        else 0) := by
  by_cases hcl : classifiedAudio env = true
  · by_cases hfits : env.responseLen ≤ ((MAX_AUDIO_BYTES + WAV_HEADER_SIZE : Nat) : Int)
    · rw [sendAudioToServer_audio s env hw hc hcl hfits]
      have hplay0 := readLoopRun_countP_zero env.responseLen.toNat 0 env.polls
        isPlay (fun _ _ => rfl)
      cases hres : (readLoopRun env.responseLen.toNat 0 env.polls).1 with
      | done bb =>
        constructor
        · rw [if_pos ⟨hcl, hfits, rfl⟩]
          simp [hres, List.countP_cons, List.countP_append, isPlay, hplay0]
        · rw [if_pos ⟨hcl, hfits⟩]
          simp [hres, List.countP_cons, List.countP_append, isPlay, isCopyResp]
      | pending bb =>
        constructor
        · rw [if_neg fun hq => by simpa [isDone] using hq.2.2]
          simp [hres, List.countP_cons, isPlay, hplay0]
        · rw [if_pos ⟨hcl, hfits⟩]
          simp [hres, List.countP_cons, isCopyResp]
    · rw [sendAudioToServer_toolarge s env hw hc hcl (not_le.1 hfits)]
      constructor
      · rw [if_neg fun hq => hfits hq.2.1]; rfl
      · rw [if_neg fun hq => hfits hq.2]; rfl
  · rw [sendAudioToServer_text s env hw hc (by simpa using hcl)]
    constructor
    · rw [if_neg fun hq => hcl hq.1]; rfl
    · rw [if_neg fun hq => hcl hq.1]; rfl

theorem claim_C6_amended_witness :
    (envAudioFits.wifiConnected = true ∧ envAudioFits.httpCode = 200) ∧
      ((sendAudioToServer initState envAudioFits).2.countP isPlay =
          (if classifiedAudio envAudioFits = true ∧
              envAudioFits.responseLen ≤
                ((MAX_AUDIO_BYTES + WAV_HEADER_SIZE : Nat) : Int) ∧
              isDone (readLoopRun envAudioFits.responseLen.toNat 0
                  envAudioFits.polls).1 = true then 1
            else 0) ∧
        (sendAudioToServer initState envAudioFits).2.countP isCopyResp =
          (if classifiedAudio envAudioFits = true ∧
              envAudioFits.responseLen ≤
                ((MAX_AUDIO_BYTES + WAV_HEADER_SIZE : Nat) : Int) then
            (readLoopRun envAudioFits.responseLen.toNat 0
                envAudioFits.polls).2.countP isCopyResp
          else 0)) :=
  ⟨⟨rfl, rfl⟩, claim_C6_amended initState envAudioFits rfl rfl⟩

/-! ## Claim C3 -/

theorem copiedBytes_cons_copy (pos len : Nat) (tr : List Action) :
    copiedBytes (Action.copyToBuffer pos len :: tr) = len + copiedBytes tr := by
  simp [copiedBytes]

theorem copiedBytes_cons_stop (tr : List Action) :
    copiedBytes (Action.bufferFullStop :: tr) = copiedBytes tr := by
  simp [copiedBytes]

/-- Invariant of a capture run: the cursor advances by exactly the bytes
copied, and if the cursor starts within capacity, it stays within capacity
and every copy is in bounds. -/
theorem captureRun_inv (rs : List I2SRead) : ∀ s : SatState,
    (captureRun s rs).1.audioBufferPos =
        s.audioBufferPos + copiedBytes (captureRun s rs).2 ∧
      (s.audioBufferPos ≤ MAX_AUDIO_BYTES + WAV_HEADER_SIZE →
        (captureRun s rs).1.audioBufferPos ≤ MAX_AUDIO_BYTES + WAV_HEADER_SIZE ∧
          ∀ a ∈ (captureRun s rs).2, copyInBounds a = true) := by
  induction rs with
  | nil =>
    intro s
    refine ⟨by simp [captureRun, copiedBytes], fun h => ⟨by simpa [captureRun] using h, ?_⟩⟩
    intro a ha
    simp [captureRun] at ha
  | cons r rest ih =>
    intro s
    by_cases hrec : s.isRecording = false
    · simp only [captureRun, captureAudioChunk_notRecording s r hrec, List.nil_append]
      exact ih s
    · have hrec2 : s.isRecording = true := by
        revert hrec
        cases s.isRecording <;> simp
      by_cases hdata : r.ok = true ∧ 0 < r.bytesRead
      · by_cases hle : s.audioBufferPos + r.bytesRead ≤ MAX_AUDIO_BYTES + WAV_HEADER_SIZE
        · simp only [captureRun,
            captureAudioChunk_fits s r hrec2 hdata.1 hdata.2 hle, List.cons_append,
            List.nil_append]
          have ihs := ih { s with audioBufferPos := s.audioBufferPos + r.bytesRead }
          constructor
          · rw [copiedBytes_cons_copy]
            have hlit : ({ s with audioBufferPos := s.audioBufferPos + r.bytesRead } :
                SatState).audioBufferPos = s.audioBufferPos + r.bytesRead := rfl
            have h6 := ihs.1
            rw [hlit] at h6
            omega
          · intro hcap
            obtain ⟨ha, hb⟩ := ihs.2 (by simpa using hle)
            refine ⟨ha, ?_⟩
            intro a ha2
            rcases List.mem_cons.1 ha2 with h1 | h2
            · rw [h1, copyInBounds]
              exact decide_eq_true hle
            · exact hb a h2
        · simp only [captureRun,
            captureAudioChunk_full s r hrec2 hdata.1 hdata.2 (not_le.1 hle),
            List.cons_append, List.nil_append]
          have ihs := ih { s with isRecording := false, ledOn := false }
          constructor
          · rw [copiedBytes_cons_stop]
            have hlit : ({ s with isRecording := false, ledOn := false } :
                SatState).audioBufferPos = s.audioBufferPos := rfl
            have h6 := ihs.1
            rw [hlit] at h6
            omega
          · intro hcap
            obtain ⟨ha, hb⟩ := ihs.2 (by simpa using hcap)
            refine ⟨ha, ?_⟩
            intro a ha2
            rcases List.mem_cons.1 ha2 with h1 | h2
            · rw [h1]; rfl
            · exact hb a h2
      · have hnd : captureAudioChunk s r = (s, []) := by
          rw [captureAudioChunk, if_neg (by simp [hrec2]), if_neg hdata]
        simp only [captureRun, hnd, List.nil_append]
        exact ih s

/-- Claim C3: for any capture sequence (in particular one whose total
incoming bytes overflow the payload capacity), every capture copy stays
within the buffer capacity, the cursor never passes it, the cursor equals
the header size plus the bytes actually copied, and the header finally
written by stopRecording declares exactly the bytes actually copied. -/
theorem claim_C3_capture_safety (rs : List I2SRead)
    (hover : MAX_AUDIO_BYTES < (rs.map I2SRead.bytesRead).sum) :
    (captureRun (startRecording initState).1 rs).1.audioBufferPos ≤
        MAX_AUDIO_BYTES + WAV_HEADER_SIZE ∧
      (∀ a ∈ (captureRun (startRecording initState).1 rs).2, copyInBounds a = true) ∧
      (captureRun (startRecording initState).1 rs).1.audioBufferPos =
        WAV_HEADER_SIZE + copiedBytes (captureRun (startRecording initState).1 rs).2 ∧
      (stopRecording (captureRun (startRecording initState).1 rs).1).2 =
        [Action.stopRec,
         Action.headerWrite
           (copiedBytes (captureRun (startRecording initState).1 rs).2)] := by
  have hinv := captureRun_inv rs (startRecording initState).1
  have hpos0 : (startRecording initState).1.audioBufferPos = WAV_HEADER_SIZE := rfl
  have hcap0 : (startRecording initState).1.audioBufferPos ≤
      MAX_AUDIO_BYTES + WAV_HEADER_SIZE := by
    rw [hpos0]
    exact Nat.le_add_left _ _
  obtain ⟨h1, h2⟩ := hinv
  obtain ⟨h3, h4⟩ := h2 hcap0
  refine ⟨h3, h4, ?_, ?_⟩
  · rw [h1, hpos0]
  · rw [stopRecording, h1, hpos0, Nat.add_sub_cancel_left]

theorem claim_C3_capture_safety_witness :
    (MAX_AUDIO_BYTES < (rsOverflow.map I2SRead.bytesRead).sum) ∧
      ((captureRun (startRecording initState).1 rsOverflow).1.audioBufferPos ≤
          MAX_AUDIO_BYTES + WAV_HEADER_SIZE ∧
        (∀ a ∈ (captureRun (startRecording initState).1 rsOverflow).2,
          copyInBounds a = true) ∧
        (captureRun (startRecording initState).1 rsOverflow).1.audioBufferPos =
          WAV_HEADER_SIZE +
            copiedBytes (captureRun (startRecording initState).1 rsOverflow).2 ∧
        (stopRecording (captureRun (startRecording initState).1 rsOverflow).1).2 =
          [Action.stopRec,
           Action.headerWrite
             (copiedBytes (captureRun (startRecording initState).1 rsOverflow).2)]) := by
  have hover : MAX_AUDIO_BYTES < (rsOverflow.map I2SRead.bytesRead).sum := by
    rw [show rsOverflow = List.replicate 470 { ok := true, bytesRead := 1024 } from rfl,
      List.map_replicate, List.sum_replicate]
    norm_num [MAX_AUDIO_BYTES, SAMPLE_RATE, BYTES_PER_SAMPLE, BITS_PER_SAMPLE,
      MAX_RECORDING_SECS]
  exact ⟨hover, claim_C3_capture_safety rsOverflow hover⟩

end VoiceSatellite
